import Mathlib

/-!
Shallow embedding of `src/if482.cpp` (IF482 time-telegram generator).

The formatter `if482Telegram` is embedded over a `WallClock` record that
stands for the breakdown returned by the external TimeLib accessors
`year(t)`, `month(t)`, `day(t)`, `weekday(t)`, `hour(t)`, `minute(t)`,
`second(t)`, and over the TimeLib status enum returned by `timeStatus()`.
The scheduler loop body `if482_loop` and the interrupt handler `IF482IRQ`
are embedded as pure step functions over the tick arithmetic they perform.
All machine integers are modelled as `Nat` (or `Int` for the signed
`year(t)`) with explicit reduction modulo 2^32 where the C code converts
to 32-bit unsigned values.
-/

/-- Modulus of the 32-bit unsigned types (`unsigned int`, `TickType_t`,
`uint32_t`) used by the C code. -/
def UINT32_MOD : Nat := 4294967296

/-- 32-bit unsigned subtraction, as performed on `TickType_t` by
`wakeTime -= startTime`. -/
def u32sub (a b : Nat) : Nat := (a + (UINT32_MOD - b % UINT32_MOD)) % UINT32_MOD

/-- 32-bit unsigned addition, as performed by `vTaskDelayUntil` when it adds
the increment to the previous wake time. -/
def u32add (a b : Nat) : Nat := (a + b) % UINT32_MOD

/-- Conversion of a C `int` value to the `unsigned int` read by the `%u`
conversions of `snprintf` (two's-complement reinterpretation). -/
def asUInt (v : Int) : Nat := (v % 4294967296).toNat

/-- The ASCII digit character for `n` (`'0' + n` as the C format produces). -/
def digitChar (n : Nat) : Char := Char.ofNat (48 + n)

/-- The carriage-return character, byte `0x0D`, written as `\r` in the C
format string. -/
def CR : Char := Char.ofNat 13

/-- Decimal digits of `n`, least significant first.  The first argument is
structural fuel; `n` itself is always enough fuel since a number has no more
digits than its value. -/
def digitsRevFuel : Nat → Nat → List Char
  | _, 0 => []
  | 0, _ => []
  | fuel + 1, n => digitChar (n % 10) :: digitsRevFuel fuel (n / 10)

/-- Decimal notation of an unsigned value, as printed by `%u`: most
significant digit first, a single `'0'` for zero. -/
def uintDec (n : Nat) : List Char :=
  if n = 0 then [digitChar 0] else (digitsRevFuel n n).reverse

/-- Left padding with ASCII zeros up to a field width, as done by a `0`-flag
width in a `printf` conversion. -/
def padLeftZeros (w : Nat) (l : List Char) : List Char :=
  List.replicate (w - l.length) (digitChar 0) ++ l

/-- The characters produced by a `%0wu` conversion applied to `n`: the
argument is read as a 32-bit unsigned value, printed in decimal, and padded
with zeros to at least `w` characters (a width is a minimum, never a
truncation). -/
def fmtU (w n : Nat) : List Char := padLeftZeros w (uintDec (n % UINT32_MOD))

/-- The TimeLib status enum `timeStatus_t`; the C declaration is
`enum {timeNotSet, timeNeedsSync, timeSet}`.  `timeSet` is the spec's
Synced, `timeNeedsSync` is StaleSync, `timeNotSet` is Unset. -/
inductive timeStatus_t
  | timeNotSet
  | timeNeedsSync
  | timeSet

/-- The numeric value of each `timeStatus_t` enum constant in C
(`timeNotSet = 0`, `timeNeedsSync = 1`, `timeSet = 2`). -/
def timeStatusValue : timeStatus_t → Nat
  | .timeNotSet => 0
  | .timeNeedsSync => 1
  | .timeSet => 2

/-- The wall-clock breakdown of a time value, as returned by the TimeLib
accessors `year(t)` (signed, full year), `month(t)`, `day(t)`, `weekday(t)`,
`hour(t)`, `minute(t)`, `second(t)`. -/
structure WallClock where
  year : Int
  month : Nat
  day : Nat
  weekday : Nat
  hour : Nat
  minute : Nat
  second : Nat

/-- Validity of a wall-clock value per the spec's data model: year at least
2000, month 1..12, day 1..31, weekday 1..7, hour 0..23, minute 0..59,
second 0..59. -/
def WallClock.Valid (w : WallClock) : Prop :=
  2000 ≤ w.year ∧ 1 ≤ w.month ∧ w.month ≤ 12 ∧ 1 ≤ w.day ∧ w.day ≤ 31 ∧
    1 ≤ w.weekday ∧ w.weekday ≤ 7 ∧ w.hour ≤ 23 ∧ w.minute ≤ 59 ∧
    w.second ≤ 59

instance (w : WallClock) : Decidable w.Valid := by
  unfold WallClock.Valid
  exact inferInstance

/-- The digit buffer built inside `if482Telegram`:
`char buf[14] = "000000F000000";` followed by
`if (!timeNotSet) snprintf(buf, sizeof buf, "%02u%02u%02u%1u%02u%02u%02u",
year(t) - 2000, month(t), day(t), weekday(t), hour(t), minute(t),
second(t));`.  The C guard `!timeNotSet` negates the enum constant
`timeNotSet` itself (value 0), i.e. it is the test `timeNotSet == 0`;
`snprintf` with `sizeof buf = 14` keeps at most 13 characters. -/
def if482buf (w : WallClock) : List Char :=
  if timeStatusValue timeStatus_t.timeNotSet = 0 then
    List.take 13
      (fmtU 2 (asUInt (w.year - 2000)) ++ fmtU 2 w.month ++ fmtU 2 w.day ++
        fmtU 1 w.weekday ++ fmtU 2 w.hour ++ fmtU 2 w.minute ++
        fmtU 2 w.second)
  else
    "000000F000000".toList

/-- The monitoring character chosen by the `switch (timeStatus())`:
`timeSet` gives `'A'`, `timeNeedsSync` gives `'M'`, the default branch
(`timeNotSet`) gives `'?'`. -/
def monChar : timeStatus_t → Char
  | .timeSet => 'A'
  | .timeNeedsSync => 'M'
  | .timeNotSet => '?'

/-- The frame returned by `if482Telegram`:
`snprintf(out, sizeof out, "O%cL%s\r", mon, buf);` with `char out[17]`,
so at most 16 characters of `'O'`, the monitoring character, `'L'`, the
digit buffer and the trailing carriage return are kept. -/
def if482Telegram (status : timeStatus_t) (w : WallClock) : List Char :=
  List.take 16 (('O' :: monChar status :: 'L' :: if482buf w) ++ [CR])

/-- The external time source as seen by the loop: the TimeLib breakdown of
any `time_t` second count, and the current `timeStatus()`. -/
structure TimeSource where
  clock : Nat → WallClock
  status : timeStatus_t

/-- `if482Telegram(time_t t)` applied through a time source: the breakdown
accessors are evaluated at `t` and the status comes from `timeStatus()`. -/
def if482TelegramAt (ts : TimeSource) (t : Nat) : List Char :=
  if482Telegram ts.status (ts.clock t)

/-- Result of one iteration of the `for (;;)` loop body of `if482_loop`:
the absolute tick deadline handed to `vTaskDelayUntil`, and the frames
printed to the serial channel during the iteration. -/
structure IterResult where
  deadline : Nat
  sent : List (List Char)

/-- One iteration of the scheduler loop in `if482_loop`, after
`xTaskNotifyWait` has delivered the notification value `notifValue` into
`wakeTime` and `t = now()` has been read: the code runs
`wakeTime -= startTime; vTaskDelayUntil(&wakeTime, shotTime);
IF482.print(if482Telegram(t + 1));`, where `vTaskDelayUntil` blocks until
the absolute tick `wakeTime + shotTime`. -/
def if482_loopIter (ts : TimeSource) (shotTime startTime notifValue t : Nat) :
    IterResult :=
  { deadline := u32add (u32sub notifValue startTime) shotTime
  , sent := [if482TelegramAt ts (t + 1)] }

/-- The update of the task notification value performed by
`xTaskNotifyFromISR(IF482Task, xTaskGetTickCountFromISR(), eSetBits, NULL)`
in `IF482IRQ`: with action `eSetBits` the delivered value is bitwise ORed
into whatever notification value is currently stored. -/
def IF482IRQ_notify (pending tick : Nat) : Nat :=
  (pending % UINT32_MOD) ||| (tick % UINT32_MOD)

/-- The digit region as the spec words it: zero-padded two-digit decimal
encodings of year mod 100, month and day, the single-digit weekday, then
two-digit hour, minute and second. -/
def twoDigitChars (n : Nat) : List Char :=
  [digitChar (n / 10), digitChar (n % 10)]

/-- Modelled from the spec wording of the digit region (bytes 4 to 16):
the concatenation of the claimed field encodings, to be compared against
the buffer the code builds. -/
def specDigits (w : WallClock) : List Char :=
  twoDigitChars (w.year % 100).toNat ++ twoDigitChars w.month ++
    twoDigitChars w.day ++ [digitChar w.weekday] ++ twoDigitChars w.hour ++
    twoDigitChars w.minute ++ twoDigitChars w.second

/-- The documentation example time: 2016-08-06, weekday 6, 17:04:00. -/
def w2016 : WallClock :=
  { year := 2016, month := 8, day := 6, weekday := 6, hour := 17,
    minute := 4, second := 0 }

/-- A wall-clock value beyond year 2099: 2100-01-01, weekday 5, 00:00:00. -/
def w2100 : WallClock :=
  { year := 2100, month := 1, day := 1, weekday := 5, hour := 0,
    minute := 0, second := 0 }

/-- A concrete synced time source whose breakdown is constantly `w2016`. -/
def tsDefault : TimeSource :=
  { clock := fun _ => w2016, status := timeStatus_t.timeSet }

theorem fmtU_length_ge (w n : Nat) : w ≤ (fmtU w n).length := by
  unfold fmtU padLeftZeros
  rw [List.length_append, List.length_replicate]
  omega

theorem take_len_append {α : Type} :
    ∀ (l₁ l₂ : List α), List.take l₁.length (l₁ ++ l₂) = l₁
  | [], _ => rfl
  | a :: t, l₂ => congrArg (a :: ·) (take_len_append t l₂)

theorem if482buf_length (w : WallClock) : (if482buf w).length = 13 := by
  have hc : timeStatusValue timeStatus_t.timeNotSet = 0 := rfl
  unfold if482buf
  rw [if_pos hc, List.length_take]
  have h1 := fmtU_length_ge 2 (asUInt (w.year - 2000))
  have h2 := fmtU_length_ge 2 w.month
  have h3 := fmtU_length_ge 2 w.day
  have h4 := fmtU_length_ge 1 w.weekday
  have h5 := fmtU_length_ge 2 w.hour
  have h6 := fmtU_length_ge 2 w.minute
  have h7 := fmtU_length_ge 2 w.second
  simp only [List.length_append]
  omega

theorem if482Telegram_eq (st : timeStatus_t) (w : WallClock) :
    if482Telegram st w = 'O' :: monChar st :: 'L' :: if482buf w := by
  have h : ('O' :: monChar st :: 'L' :: if482buf w).length = 16 := by
    rw [List.length_cons, List.length_cons, List.length_cons,
      if482buf_length]
  unfold if482Telegram
  rw [← h]
  exact take_len_append _ _

theorem fmtU2_eq_digits :
    ∀ n : Nat, n < 100 → fmtU 2 n = [digitChar (n / 10), digitChar (n % 10)] := by
  decide

theorem fmtU1_eq_digit : ∀ n : Nat, n < 10 → fmtU 1 n = [digitChar n] := by
  decide

/-- Claim C1: the claim says `if482Telegram` always returns a frame of
exactly 17 bytes whose byte 17 is a carriage return.  The code truncates:
`snprintf(out, sizeof out, "O%cL%s\r", ...)` with `char out[17]` keeps only
16 characters, dropping the trailing carriage return.  At the documentation
example time the frame is the 16 characters of `"OAL1608066170400"` and
contains no carriage return at all. -/
theorem c1_frame_truncated_to_16 :
    if482Telegram timeStatus_t.timeSet w2016 = "OAL1608066170400".toList ∧
    (if482Telegram timeStatus_t.timeSet w2016).length = 16 ∧
    CR ∉ if482Telegram timeStatus_t.timeSet w2016 := by
  decide

/-- Claim C2: the claim says that with status Unset the digit fields are all
`'0'` and the weekday field is the sentinel `'F'`.  The code's guard
`if (!timeNotSet)` negates the enum constant `timeNotSet` (value 0) and is
therefore always true, so the real time is always encoded: at the example
time with status Unset the digit region is `"1608066170400"`, not the
sentinel buffer `"000000F000000"`. -/
theorem c2_unset_still_encodes_time :
    List.drop 3 (if482Telegram timeStatus_t.timeNotSet w2016) =
      "1608066170400".toList ∧
    List.drop 3 (if482Telegram timeStatus_t.timeNotSet w2016) ≠
      "000000F000000".toList := by
  decide

/-- Claim C3 counterexample: the claim says the delay deadline equals
notified tick plus offset.  With reference tick 100 recorded at startup,
notified tick 200 and offset 50, the code rebases the notification value
(`wakeTime -= startTime`) and hands `vTaskDelayUntil` the deadline
150, not 200 + 50 = 250. -/
theorem c3_counterexample :
    (if482_loopIter tsDefault 50 100 200 0).deadline = 150 ∧
    (if482_loopIter tsDefault 50 100 200 0).deadline ≠ 200 + 50 := by
  decide

/-- Claim C3 (amended): for a notification carrying edge tick `T`, the
scheduler's absolute delay deadline equals `(T - startTime) + shot`, the
notified tick rebased by the startup reference tick plus the configured
offset (in the unwrapped range); it equals `T + shot` only when the
reference tick is zero.  Exactly one frame is transmitted per delivered
notification. -/
theorem c3_deadline_rebased (ts : TimeSource) (shot start T t : Nat)
    (h1 : start ≤ T) (h2 : T - start + shot < UINT32_MOD) :
    (if482_loopIter ts shot start T t).deadline = (T - start) + shot ∧
    (if482_loopIter ts shot start T t).sent.length = 1 := by
  constructor
  · simp only [if482_loopIter, u32add, u32sub, UINT32_MOD] at *
    omega
  · rfl

theorem c3_deadline_rebased_witness :
    (if482_loopIter tsDefault 50 0 200 0).deadline = (200 - 0) + 50 ∧
    (if482_loopIter tsDefault 50 0 200 0).sent.length = 1 :=
  c3_deadline_rebased tsDefault 50 0 200 0 (by decide) (by decide)

/-- Claim C4: in every iteration of the scheduler loop, the frame passed to
the output channel is the telegram formatted for `t + 1`, one second after
the wall-clock snapshot `t` taken right after the notification. -/
theorem c4_sends_telegram_for_next_second (ts : TimeSource)
    (shot start T t : Nat) :
    (if482_loopIter ts shot start T t).sent = [if482TelegramAt ts (t + 1)] :=
  rfl

/-- Claim C5 counterexample: the claim quantifies over every valid wall
clock with year at least 2000, but at year 2100 the code formats
`year(t) - 2000 = 100` as three digits (`%02u` widths are minima), so the
digit region is `"1000101500000"` while the claimed encoding of
year mod 100 = 0 would start with `"00"`. -/
theorem c5_counterexample :
    w2100.Valid ∧ 2000 ≤ w2100.year ∧
    List.drop 3 (if482Telegram timeStatus_t.timeSet w2100) ≠
      specDigits w2100 := by
  decide

/-- Claim C5 (amended): for every valid WallClock with 2000 ≤ year ≤ 2099
and status Synced, bytes 4 to 16 of the frame are the concatenation of the
zero-padded two-digit encodings of year mod 100, month, day, the
single-digit weekday, and two-digit hour, minute and second. -/
theorem c5_digit_fields (w : WallClock) (hv : w.Valid) (hy : w.year ≤ 2099) :
    List.drop 3 (if482Telegram timeStatus_t.timeSet w) = specDigits w := by
  obtain ⟨hy0, hm1, hm2, hd1, hd2, hw1, hw2, hh, hmi, hs⟩ := hv
  rw [if482Telegram_eq]
  have hdrop :
      List.drop 3 ('O' :: monChar timeStatus_t.timeSet :: 'L' :: if482buf w) =
        if482buf w := rfl
  rw [hdrop]
  have hc : timeStatusValue timeStatus_t.timeNotSet = 0 := rfl
  unfold if482buf
  rw [if_pos hc]
  have hyear : asUInt (w.year - 2000) = (w.year % 100).toNat := by
    unfold asUInt
    omega
  rw [hyear, fmtU2_eq_digits _ (by omega), fmtU2_eq_digits w.month (by omega),
    fmtU2_eq_digits w.day (by omega), fmtU1_eq_digit w.weekday (by omega),
    fmtU2_eq_digits w.hour (by omega), fmtU2_eq_digits w.minute (by omega),
    fmtU2_eq_digits w.second (by omega)]
  rfl

theorem c5_digit_fields_witness :
    List.drop 3 (if482Telegram timeStatus_t.timeSet w2016) =
      specDigits w2016 :=
  c5_digit_fields w2016 (by decide) (by decide)

/-- Claim C6: byte 2 of the frame is `'A'` for status Synced, `'M'` for
StaleSync, and the placeholder `'?'` (neither `'A'` nor `'M'`) for Unset;
changing the status from Synced to StaleSync changes no byte other than
byte 2. -/
theorem c6_monitoring_byte (w : WallClock) :
    (if482Telegram timeStatus_t.timeSet w).get? 1 = some 'A' ∧
    (if482Telegram timeStatus_t.timeNeedsSync w).get? 1 = some 'M' ∧
    (if482Telegram timeStatus_t.timeNotSet w).get? 1 = some '?' ∧
    '?' ≠ 'A' ∧ '?' ≠ 'M' ∧
    ∀ i : Nat, i ≠ 1 →
      (if482Telegram timeStatus_t.timeSet w).get? i =
        (if482Telegram timeStatus_t.timeNeedsSync w).get? i := by
  simp only [if482Telegram_eq]
  refine ⟨rfl, rfl, rfl, by decide, by decide, ?_⟩
  intro i hi
  match i with
  | 0 => rfl
  | 1 => exact absurd rfl hi
  | n + 2 => rfl

theorem c6_monitoring_byte_witness :
    (if482Telegram timeStatus_t.timeSet w2016).get? 0 =
      (if482Telegram timeStatus_t.timeNeedsSync w2016).get? 0 :=
  (c6_monitoring_byte w2016).2.2.2.2.2 0 (by decide)

/-- Claim C7: formatting is deterministic and stateless: calling the
formatter twice on the same (status, wall clock) pair yields byte-identical
frames, and the frame depends only on the status and the clock breakdown,
not on the time source object or the second count it was read at. -/
theorem c7_formatting_deterministic (ts ts2 : TimeSource) (t t2 : Nat)
    (hs : ts.status = ts2.status) (hcl : ts.clock t = ts2.clock t2) :
    if482TelegramAt ts t = if482TelegramAt ts2 t2 ∧
    ∀ (st : timeStatus_t) (w : WallClock),
      if482Telegram st w = if482Telegram st w := by
  constructor
  · unfold if482TelegramAt
    rw [hs, hcl]
  · intro st w
    rfl

theorem c7_formatting_deterministic_witness :
    if482TelegramAt tsDefault 0 = if482TelegramAt tsDefault 1 :=
  (c7_formatting_deterministic tsDefault tsDefault 0 1 rfl rfl).1

/-- Claim C8: the claim says the handoff is overwrite-latest, so that with a
pending notification value the stored value afterwards equals the new tick.
The code notifies with action `eSetBits`, which bitwise ORs the tick into
the pending value: with pending value 1 and new tick 2 the slot holds
1 ||| 2 = 3, not 2. -/
theorem c8_notify_is_or_not_overwrite :
    IF482IRQ_notify 1 2 = 3 ∧ IF482IRQ_notify 1 2 ≠ 2 := by
  decide

/-- Claim C9: with status Unset the monitoring byte (byte 2 of the frame) is
the placeholder character `'?'`. -/
theorem c9_unset_placeholder_question_mark (w : WallClock) :
    (if482Telegram timeStatus_t.timeNotSet w).get? 1 = some '?' := by
  rw [if482Telegram_eq]
  exact rfl

/-- Claim C10: for every input, also out-of-range ones such as year 2100 and
beyond, the digit buffer holds at most 13 characters and the output frame at
most 16 characters: both `snprintf` calls truncate to their buffer sizes,
so the formatter is total and never overflows. -/
theorem c10_buffers_bounded (st : timeStatus_t) (w : WallClock) :
    (if482buf w).length ≤ 13 ∧ (if482Telegram st w).length ≤ 16 := by
  constructor
  · exact le_of_eq (if482buf_length w)
  · unfold if482Telegram
    rw [List.length_take]
    omega
